import Mathlib

/-!
Verification of the labwc window-manager core against its source.

The definitions below are a shallow embedding of the relevant parts of
the C sources:

* `src/src/desktop.c`      — the automatic tiling engine (`desktop_arrange_tiled`)
* `src/src/input/keyboard.c` — the keybinding engine (device filters, keybind
  matching, cycle-mode keys, asynchronous condition gating, key repeat)
* `src/src/main.c`         — the CLI control-channel client paths

C integers are modelled as `Int` with explicit truncating division
(`Int.tdiv` — the semantics of C `/` on ints) and explicit 2^32 wraparound
where the C code relies on unsigned overflow.  C strings are modelled as
`String` / `List Char`.  External collaborators (xkb, wlroots, the view
registry) appear as parameters or as small models noted in the doc comment
of the corresponding definition.
-/

/-- Box models `struct wlr_box`: x, y, width, height in layout coordinates. -/
structure Box where
  x : Int
  y : Int
  w : Int
  h : Int
deriving DecidableEq

/-- Border models `struct border`: server-side-decoration thickness per side. -/
structure Border where
  top : Int
  right : Int
  bottom : Int
  left : Int
deriving DecidableEq

/-- noBorder is the zero SSD thickness (no server-side decorations). -/
def noBorder : Border := ⟨0, 0, 0, 0⟩

/-- cDiv models C integer division on `int` values: truncation toward zero. -/
def cDiv (a b : Int) : Int := Int.tdiv a b

/-- cMod models the C `%` operator on `int` values (truncated remainder). -/
def cMod (a b : Int) : Int := Int.tmod a b

/-- cAbs models C `abs()`. -/
def cAbs (a : Int) : Int := if a < 0 then -a else a

/-- chooseLayout embeds the `(cols, rows)` selection of `desktop_arrange_tiled`
(src/src/desktop.c lines 505-570, and the textually identical recomputation at
lines 594-646) for a tileable count `n` on one output.  The first component is
the `use_vertical_split` flag.  The C code compares the floating-point aspect
`(double)usable.width / usable.height` against 1.5 (resp. 1.3); this is
modelled by the exact rational comparison `2*w > 3*h` (resp. `10*w > 13*h`),
which agrees with the double computation except possibly at inputs rounding
exactly onto the threshold. -/
def chooseLayout (n : Int) (preferVertical preferHorizontal : Bool) (usable : Box) :
    Bool × Int × Int :=
  if n = 1 then (false, 1, 1)
  else if n = 2 then (false, 2, 1)
  else if n = 3 then
    if preferVertical && !preferHorizontal then (true, 2, 2)
    else if preferHorizontal && !preferVertical then (false, 2, 2)
    else if 2 * usable.w > 3 * usable.h then (false, 2, 2)
    else (true, 2, 2)
  else if n = 4 then (false, 2, 2)
  else if n = 5 then
    if preferVertical && !preferHorizontal then (false, 2, 3)
    else if preferHorizontal && !preferVertical then (false, 3, 2)
    else if 10 * usable.w > 13 * usable.h then (false, 3, 2)
    else (false, 2, 3)
  else if n = 6 then (false, 3, 2)
  else (false, 3, cDiv (n + 2) 3)

/-- lastRowCount embeds src/src/desktop.c lines 648-651:
`last_row_count = output_count % cols`, replaced by `cols` when zero. -/
def lastRowCount (n cols : Int) : Int :=
  let l := cMod n cols
  if l = 0 then cols else l

/-- tileGeometry embeds the per-view geometry computation of the tiling loop in
`desktop_arrange_tiled` (src/src/desktop.c lines 1134-1211) for the case
without an anchor (resized) view, where `layout_area` is the usable area.
`idx` is the running index of the view among the tileable views of the
output. -/
def tileGeometry (gap : Int) (area : Box) (cols rows lastRowCnt cellW cellH : Int)
    (useVerticalSplit : Bool) (outputCount : Int) (margin : Border) (idx : Int) : Box :=
  if useVerticalSplit && outputCount = 3 then
    if idx = 0 then
      ⟨area.x + gap + margin.left,
       area.y + gap + margin.top,
       cDiv (area.w - 3 * gap) 2 - margin.left - margin.right,
       area.h - 2 * gap - margin.top - margin.bottom⟩
    else
      let rightRow := idx - 1
      let rightWidth := cDiv (area.w - 3 * gap) 2
      let rightHeight := cDiv (area.h - 3 * gap) 2
      ⟨area.x + 2 * gap + rightWidth + margin.left,
       area.y + (rightRow + 1) * gap + rightRow * rightHeight + margin.top,
       rightWidth - margin.left - margin.right,
       rightHeight - margin.top - margin.bottom⟩
  else
    let col := cMod idx cols
    let row := cDiv idx cols
    let isLastRow := row = rows - 1
    let lastRowIncomplete := lastRowCnt < cols
    let widthAndX : Int × Int :=
      if isLastRow ∧ lastRowIncomplete then
        let w := cDiv (area.w - (lastRowCnt + 1) * gap) lastRowCnt
        (w, area.x + (col + 1) * gap + col * w)
      else
        (cellW, area.x + (col + 1) * gap + col * cellW)
    let width := widthAndX.1
    let xPos := widthAndX.2
    let height := cellH
    let isLastCol := col = cols - 1
    let width :=
      if isLastCol ∧ ¬isLastRow then
        let expectedRight := area.x + area.w - gap
        let currentRight := xPos + width
        if currentRight < expectedRight then width + (expectedRight - currentRight)
        else width
      else width
    let height :=
      if isLastRow then
        let expectedBottom := area.y + area.h - gap
        let currentBottom := area.y + (row + 1) * gap + row * cellH + height
        if currentBottom < expectedBottom then height + (expectedBottom - currentBottom)
        else height
      else height
    ⟨xPos + margin.left,
     area.y + (row + 1) * gap + row * cellH + margin.top,
     width - margin.left - margin.right,
     height - margin.top - margin.bottom⟩

/-- arrangeTiledNoAnchor embeds the per-output arrangement of
`desktop_arrange_tiled` (src/src/desktop.c lines 505-661 and 905-1214) when
`server->resized_view == NULL`: layout choice, cell math and the geometry
committed for each tileable view in iteration order.  `margins` lists the SSD
thickness of each tileable view on the output. -/
def arrangeTiledNoAnchor (gap : Int) (usable : Box) (preferVertical preferHorizontal : Bool)
    (margins : List Border) : List Box :=
  let n : Int := margins.length
  let layout := chooseLayout n preferVertical preferHorizontal usable
  let useVerticalSplit := layout.1
  let cols := layout.2.1
  let rows := layout.2.2
  let lrc := lastRowCount n cols
  let cellW := cDiv (usable.w - (cols + 1) * gap) cols
  let cellH := cDiv (usable.h - (rows + 1) * gap) rows
  (List.range margins.length).zip margins |>.map fun im =>
    tileGeometry gap usable cols rows lrc cellW cellH useVerticalSplit n im.2
      (Int.ofNat im.1)

/-- TileViewState carries, for the proactive-fill phase, a view's committed
content geometry (`view->current`), its SSD margin, and whether it is the
anchor (`server->resized_view`), which the fill phase never expands. -/
structure TileViewState where
  box : Box
  margin : Border
  isResized : Bool
deriving DecidableEq

/-- viewFull recovers the full on-screen rectangle of a view including its SSD
margins, as computed repeatedly in desktop.c (for example lines 1260-1266). -/
def viewFull (b : Box) (m : Border) : Box :=
  ⟨b.x - m.left, b.y - m.top, b.w + m.left + m.right, b.h + m.top + m.bottom⟩

/-- bboxGrow embeds the bounding-box update of the occupied-area scan
(src/src/desktop.c lines 1271-1292).  Note the C code captures the old right
and bottom edges before mutating `occupied`, and uses the updated `occupied.x`
when recomputing the width; this is reproduced exactly. -/
def bboxGrow (occ vf : Box) : Box :=
  let occRight := occ.x + occ.w
  let occBottom := occ.y + occ.h
  let vRight := vf.x + vf.w
  let vBottom := vf.y + vf.h
  let occ1 := if vf.x < occ.x then ⟨vf.x, occ.y, occ.w + (occ.x - vf.x), occ.h⟩ else occ
  let occ2 := if vf.y < occ1.y then ⟨occ1.x, vf.y, occ1.w, occ1.h + (occ1.y - vf.y)⟩ else occ1
  let occ3 := if vRight > occRight then ⟨occ2.x, occ2.y, vRight - occ2.x, occ2.h⟩ else occ2
  if vBottom > occBottom then ⟨occ3.x, occ3.y, occ3.w, vBottom - occ3.y⟩ else occ3

/-- computeOccupied embeds the occupied-bounding-box scan over all tileable
views of the output (src/src/desktop.c lines 1239-1293); `none` when there is
no tileable view. -/
def computeOccupied (views : List TileViewState) : Option Box :=
  views.foldl
    (fun acc v =>
      let vf := viewFull v.box v.margin
      match acc with
      | none => some vf
      | some occ => some (bboxGrow occ vf))
    none

/-- growOccupied embeds the in-pass occupied-area update after one view was
expanded (src/src/desktop.c lines 1404-1418); unlike `bboxGrow` all four
comparisons here use the already-updated box. -/
def growOccupied (occ vf : Box) : Box :=
  let occ1 := if vf.x < occ.x then ⟨vf.x, occ.y, occ.w + (occ.x - vf.x), occ.h⟩ else occ
  let occ2 := if vf.y < occ1.y then ⟨occ1.x, vf.y, occ1.w, occ1.h + (occ1.y - vf.y)⟩ else occ1
  let occ3 := if vf.x + vf.w > occ2.x + occ2.w then ⟨occ2.x, occ2.y, vf.x + vf.w - occ2.x, occ2.h⟩ else occ2
  if vf.y + vf.h > occ3.y + occ3.h then ⟨occ3.x, occ3.y, occ3.w, vf.y + vf.h - occ3.y⟩ else occ3

/-- clampToUsable embeds the bounds adjustment applied to an expanded geometry
(src/src/desktop.c lines 1377-1391). -/
def clampToUsable (usable g : Box) : Box :=
  let g1 := if g.x < usable.x then ⟨usable.x, g.y, g.w - (usable.x - g.x), g.h⟩ else g
  let g2 := if g1.y < usable.y then ⟨g1.x, usable.y, g1.w, g1.h - (usable.y - g1.y)⟩ else g1
  let g3 := if g2.x + g2.w > usable.x + usable.w then ⟨g2.x, g2.y, usable.x + usable.w - g2.x, g2.h⟩ else g2
  if g3.y + g3.h > usable.y + usable.h then ⟨g3.x, g3.y, g3.w, usable.y + usable.h - g3.y⟩ else g3

/-- expandPass embeds one pass of the proactive-fill inner loop
(src/src/desktop.c lines 1311-1426): each non-anchor view whose full rectangle
aligns (within `gap + 5`) with an occupied-area edge that has more than `gap`
of empty space beyond it is expanded to the usable-area edge; `occupied` and
the per-side empty amounts are updated after every expansion, exactly as the C
code mutates its locals.  Returns the updated views and the number of views
expanded. -/
def expandPass (gap : Int) (usable : Box) :
    Box → Int → Int → Int → Int → List TileViewState → List TileViewState × Nat
  | _, _, _, _, _, [] => ([], 0)
  | occ, eL, eR, eT, eB, v :: rest =>
    if v.isResized then
      let r := expandPass gap usable occ eL eR eT eB rest
      (v :: r.1, r.2)
    else
      let vf := viewFull v.box v.margin
      let g0 := v.box
      let s1 : Box × Bool :=
        if eL > gap ∧ cAbs (vf.x - occ.x) ≤ gap + 5 then
          (⟨usable.x + v.margin.left, g0.y, g0.w + (eL - gap), g0.h⟩, true)
        else (g0, false)
      let s2 : Box × Bool :=
        if eR > gap ∧ cAbs ((vf.x + vf.w) - (occ.x + occ.w)) ≤ gap + 5 then
          (⟨s1.1.x, s1.1.y, s1.1.w + (eR - gap), s1.1.h⟩, true)
        else s1
      let s3 : Box × Bool :=
        if eT > gap ∧ cAbs (vf.y - occ.y) ≤ gap + 5 then
          (⟨s2.1.x, usable.y + v.margin.top, s2.1.w, s2.1.h + (eT - gap)⟩, true)
        else s2
      let s4 : Box × Bool :=
        if eB > gap ∧ cAbs ((vf.y + vf.h) - (occ.y + occ.h)) ≤ gap + 5 then
          (⟨s3.1.x, s3.1.y, s3.1.w, s3.1.h + (eB - gap)⟩, true)
        else s3
      if s4.2 then
        let g := clampToUsable usable s4.1
        let vfNew := viewFull g v.margin
        let occNew := growOccupied occ vfNew
        let eLNew := occNew.x - usable.x
        let eRNew := (usable.x + usable.w) - (occNew.x + occNew.w)
        let eTNew := occNew.y - usable.y
        let eBNew := (usable.y + usable.h) - (occNew.y + occNew.h)
        let r := expandPass gap usable occNew eLNew eRNew eTNew eBNew rest
        (⟨g, v.margin, v.isResized⟩ :: r.1, r.2 + 1)
      else
        let r := expandPass gap usable occ eL eR eT eB rest
        (v :: r.1, r.2)

/-- fillIteration embeds one iteration of the proactive-fill outer loop for a
single output (src/src/desktop.c lines 1229-1435): compute the occupied
bounding box, and when some side has more than `gap` of empty space run an
expansion pass.  The second component is the C `space_filled` flag (true when
nothing remains to do, including the give-up case where no view could
expand). -/
def fillIteration (gap : Int) (usable : Box) (views : List TileViewState) :
    List TileViewState × Bool :=
  match computeOccupied views with
  | none => (views, true)
  | some occ =>
    let eL := occ.x - usable.x
    let eR := (usable.x + usable.w) - (occ.x + occ.w)
    let eT := occ.y - usable.y
    let eB := (usable.y + usable.h) - (occ.y + occ.h)
    if eL > gap ∨ eR > gap ∨ eT > gap ∨ eB > gap then
      let r := expandPass gap usable occ eL eR eT eB views
      (r.1, r.2 = 0)
    else (views, true)

/-- fillLoop embeds the bounded outer loop of the proactive-fill phase with its
`max_iterations = 10` fuel (src/src/desktop.c lines 1228-1441). -/
def fillLoop (gap : Int) (usable : Box) : Nat → List TileViewState → List TileViewState
  | 0, views => views
  | fuel + 1, views =>
    let r := fillIteration gap usable views
    if r.2 then r.1 else fillLoop gap usable fuel r.1

/-- proactiveFill runs the proactive-fill phase (grid mode off) over the views
of one output. -/
def proactiveFill (gap : Int) (usable : Box) (views : List TileViewState) :
    List TileViewState :=
  fillLoop gap usable 10 views

/-- desktopArrangeTiled embeds `desktop_arrange_tiled` (src/src/desktop.c)
restricted to a single usable output and to `server->resized_view == NULL`
(no anchor view) — the premise of the end-to-end scenarios.  `margins` lists
the SSD thickness of each tileable view of the current workspace on this
output, in iteration order.  The result is the list of content geometries
committed through `view_move_resize`, after the proactive-fill phase when grid
mode is off; `none` when tiling is disabled or no view is tileable (no view is
moved).  Modelled from the spec: `view_move_resize` (view.c, not under src/)
commits the requested geometry to the view, so the fill phase reads the
just-committed rectangles. -/
def desktopArrangeTiled (tilingMode tilingGridMode : Bool) (gap : Int) (usable : Box)
    (preferVertical preferHorizontal : Bool) (margins : List Border) :
    Option (List Box) :=
  if !tilingMode then none
  else if margins.length = 0 then none
  else
    let committed := arrangeTiledNoAnchor gap usable preferVertical preferHorizontal margins
    if tilingGridMode then some committed
    else
      let states := committed.zip margins |>.map fun bm => TileViewState.mk bm.1 bm.2 false
      some ((proactiveFill gap usable states).map TileViewState.box)

/-- C1: with gap 10, one output with usable area 1000x600 at the origin, no SSD
margins, tiling enabled, grid mode off and no anchor view, the tiling engine
commits A = (10, 10, 485, 580) and B = (505, 10, 485, 580) for exactly two
tileable views. -/
theorem arrange_two_views_scenario :
    desktopArrangeTiled true false 10 ⟨0, 0, 1000, 600⟩ false false
      [noBorder, noBorder] =
      some [⟨10, 10, 485, 580⟩, ⟨505, 10, 485, 580⟩] := by
  decide

/-- C2: with gap 10, one output with usable area 1000x600 at the origin (aspect
above 1.5), no SSD margins, no direction preference, tiling enabled, grid mode
off and no anchor view, three tileable views get the 2x2 layout with one view
in the last row: A = (10, 10, 485, 285), B = (505, 10, 485, 285) and
C = (10, 305, 980, 285), the last-row view being widened to fill the row. -/
theorem arrange_three_views_wide_scenario :
    desktopArrangeTiled true false 10 ⟨0, 0, 1000, 600⟩ false false
      [noBorder, noBorder, noBorder] =
      some [⟨10, 10, 485, 285⟩, ⟨505, 10, 485, 285⟩, ⟨10, 305, 980, 285⟩] := by
  decide

/-- cLowerNat models the ASCII `tolower` applied by `strcasecmp` to each byte:
the character code with upper-case letters shifted to lower case. -/
def cLowerNat (c : Char) : Nat :=
  if 65 ≤ c.toNat ∧ c.toNat ≤ 90 then c.toNat + 32 else c.toNat

/-- strCaseEq models `strcasecmp(a, b) == 0`: equality after ASCII lower-casing
every character. -/
def strCaseEq (a b : String) : Bool :=
  a.data.map cLowerNat == b.data.map cLowerNat

/-- keybindDeviceIsBlacklisted embeds the function of the same name
(src/src/input/keyboard.c lines 213-226).  A device-name entry of a list node
may be NULL, hence `Option String`; a NULL event device name never matches. -/
def keybindDeviceIsBlacklisted (blacklist : List (Option String))
    (deviceName : Option String) : Bool :=
  match deviceName with
  | none => false
  | some d =>
    blacklist.any fun e =>
      match e with
      | some s => strCaseEq s d
      | none => false

/-- keybindDeviceIsWhitelisted embeds the function of the same name
(src/src/input/keyboard.c lines 228-253): an empty whitelist allows every
device; a NULL device name is blocked by a non-empty whitelist. -/
def keybindDeviceIsWhitelisted (whitelist : List (Option String))
    (deviceName : Option String) : Bool :=
  if whitelist.isEmpty then true
  else
    match deviceName with
    | none => false
    | some d =>
      whitelist.any fun e =>
        match e with
        | some s => strCaseEq s d
        | none => false

/-- Keybind models `struct keybind` with the fields the matching and press
paths read.  `inhibitsActions` stands for the result of
`view_inhibits_actions(server->active_view, &keybind->actions)` for the
currently active view (view.c is an external collaborator of keyboard.c). -/
structure Keybind where
  modifiers : Nat
  enabled : Bool
  inhibitsActions : Bool
  deviceBlacklist : List (Option String)
  deviceWhitelist : List (Option String)
  keysyms : List Nat
  keycodes : List Nat
  onRelease : Bool
  allowWhenLocked : Bool
  hasCondition : Bool
deriving DecidableEq

/-- xkbKeyNoSymbol is `XKB_KEY_NoSymbol`. -/
def xkbKeyNoSymbol : Nat := 0

/-- matchKeybindingForSym embeds the function of the same name
(src/src/input/keyboard.c lines 255-320): walk `rc.keybinds` in configuration
order and return the first keybind that passes the modifier (exact xor),
enabled, action-inhibition and device filters and whose keycode set contains
the keycode (when `sym` is `XKB_KEY_NoSymbol`) or whose keysym set contains
the lower-cased keysym.  `toLower` stands for the external
`xkb_keysym_to_lower`. -/
def matchKeybindingForSym (toLower : Nat → Nat) (modifiers sym xkbKeycode : Nat)
    (deviceName : Option String) : List Keybind → Option Keybind
  | [] => none
  | k :: rest =>
    let skip := matchKeybindingForSym toLower modifiers sym xkbKeycode deviceName rest
    if modifiers ^^^ k.modifiers ≠ 0 then skip
    else if !k.enabled then skip
    else if k.inhibitsActions then skip
    else if keybindDeviceIsBlacklisted k.deviceBlacklist deviceName then skip
    else if !keybindDeviceIsWhitelisted k.deviceWhitelist deviceName then skip
    else if sym = xkbKeyNoSymbol then
      if k.keycodes.contains xkbKeycode then some k else skip
    else if k.keysyms.contains (toLower sym) then some k else skip

/-- matchForSyms embeds the keysym fallback loops of `match_keybinding`
(src/src/input/keyboard.c lines 366-392): try each keysym of a list in order
and return the first keybind match. -/
def matchForSyms (toLower : Nat → Nat) (modifiers xkbKeycode : Nat)
    (deviceName : Option String) (binds : List Keybind) : List Nat → Option Keybind
  | [] => none
  | s :: rest =>
    match matchKeybindingForSym toLower modifiers s xkbKeycode deviceName binds with
    | some k => some k
    | none => matchForSyms toLower modifiers xkbKeycode deviceName binds rest

/-- matchKeybinding embeds the function of the same name
(src/src/input/keyboard.c lines 347-396): keycodes first (skipped for virtual
keyboards), then translated keysyms, then raw keysyms. -/
def matchKeybinding (toLower : Nat → Nat) (modifiers : Nat) (isVirtual : Bool)
    (xkbKeycode : Nat) (translated raw : List Nat) (deviceName : Option String)
    (binds : List Keybind) : Option Keybind :=
  let r1 :=
    if isVirtual then none
    else matchKeybindingForSym toLower modifiers xkbKeyNoSymbol xkbKeycode deviceName binds
  match r1 with
  | some k => some k
  | none =>
    match matchForSyms toLower modifiers xkbKeycode deviceName binds translated with
    | some k => some k
    | none => matchForSyms toLower modifiers xkbKeycode deviceName binds raw

/-- keybindEligible restates the spec's per-keybind filters: the modifier set
equals the keybind's mask exactly, the keybind is enabled, its actions are not
inhibited by the active view, and the source device passes both device
filters. -/
def keybindEligible (modifiers : Nat) (deviceName : Option String) (k : Keybind) : Bool :=
  (modifiers == k.modifiers) && k.enabled && !k.inhibitsActions
    && !keybindDeviceIsBlacklisted k.deviceBlacklist deviceName
    && keybindDeviceIsWhitelisted k.deviceWhitelist deviceName

/-- keybindKeyHit restates the spec's key criterion for one matching stage:
keycode membership for the keycode stage (`sym = NoSymbol`), membership of the
lower-cased keysym otherwise. -/
def keybindKeyHit (toLower : Nat → Nat) (sym xkbKeycode : Nat) (k : Keybind) : Bool :=
  if sym = xkbKeyNoSymbol then k.keycodes.contains xkbKeycode
  else k.keysyms.contains (toLower sym)

theorem matchKeybindingForSym_eq_find (toLower : Nat → Nat) (mods sym kc : Nat)
    (dev : Option String) (binds : List Keybind) :
    matchKeybindingForSym toLower mods sym kc dev binds =
      binds.find? fun k => keybindEligible mods dev k && keybindKeyHit toLower sym kc k := by
  induction binds with
  | nil => rfl
  | cons k rest ih =>
    rw [matchKeybindingForSym]
    by_cases hx : mods ^^^ k.modifiers ≠ 0
    · have hne : (mods == k.modifiers) = false := by
        rw [beq_eq_false_iff_ne]
        intro h
        apply hx
        rw [h]
        exact Nat.xor_self _
      rw [if_pos hx, ih, List.find?_cons_of_neg]
      simp [keybindEligible, hne]
    · have hmods : (mods == k.modifiers) = true := by
        rw [beq_iff_eq]
        exact Nat.xor_eq_zero.mp (not_ne_iff.mp hx)
      rw [if_neg hx]
      by_cases he : k.enabled
      · rw [if_neg (by simp [he])]
        by_cases hi : k.inhibitsActions
        · rw [if_pos hi, ih, List.find?_cons_of_neg]
          simp [keybindEligible, hi]
        · rw [if_neg hi]
          by_cases hb : keybindDeviceIsBlacklisted k.deviceBlacklist dev
          · rw [if_pos hb, ih, List.find?_cons_of_neg]
            simp [keybindEligible, hb]
          · rw [if_neg hb]
            by_cases hw : keybindDeviceIsWhitelisted k.deviceWhitelist dev
            · rw [if_neg (by simp [hw])]
              have helig : keybindEligible mods dev k = true := by
                simp [keybindEligible, hmods, he, hi, hb, hw]
              by_cases hs : sym = xkbKeyNoSymbol
              · rw [if_pos hs]
                by_cases hc : k.keycodes.contains kc = true
                · have hhit : keybindKeyHit toLower sym kc k = true := by
                    rw [keybindKeyHit, if_pos hs]
                    exact hc
                  rw [if_pos hc, List.find?_cons_of_pos]
                  simp [helig, hhit]
                · have hhit : keybindKeyHit toLower sym kc k = false := by
                    rw [keybindKeyHit, if_pos hs]
                    exact eq_false_of_ne_true hc
                  rw [if_neg hc, ih, List.find?_cons_of_neg]
                  simp [hhit]
              · rw [if_neg hs]
                by_cases hc : k.keysyms.contains (toLower sym) = true
                · have hhit : keybindKeyHit toLower sym kc k = true := by
                    rw [keybindKeyHit, if_neg hs]
                    exact hc
                  rw [if_pos hc, List.find?_cons_of_pos]
                  simp [helig, hhit]
                · have hhit : keybindKeyHit toLower sym kc k = false := by
                    rw [keybindKeyHit, if_neg hs]
                    exact eq_false_of_ne_true hc
                  rw [if_neg hc, ih, List.find?_cons_of_neg]
                  simp [hhit]
            · rw [if_pos (by simp [hw]), ih, List.find?_cons_of_neg]
              simp [keybindEligible, hw]
      · rw [if_pos (by simp [he]), ih, List.find?_cons_of_neg]
        simp [keybindEligible, he]

theorem matchForSyms_eq_findSome (toLower : Nat → Nat) (mods kc : Nat)
    (dev : Option String) (binds : List Keybind) (syms : List Nat) :
    matchForSyms toLower mods kc dev binds syms =
      syms.findSome? fun s =>
        binds.find? fun k => keybindEligible mods dev k && keybindKeyHit toLower s kc k := by
  induction syms with
  | nil => rfl
  | cons s rest ih =>
    rw [matchForSyms, List.findSome?_cons, matchKeybindingForSym_eq_find]
    cases binds.find? fun k => keybindEligible mods dev k && keybindKeyHit toLower s kc k with
    | none => exact ih
    | some k => rfl

/-- C5: for a press with modifier set `mods`, keycode `kc`, translated keysyms
`translated` and raw keysyms `raw`, keybind matching is exactly: the first
keybind (in configuration order) that passes the filters and whose keycode set
contains `kc` — skipped entirely for virtual keyboards — or else the first
keybind hit by some translated keysym (tried in order), or else by some raw
keysym; a keybind is only considered when the modifier set equals its mask
exactly, and keysym comparison is on the lower-cased keysym
(`keybindEligible` and `keybindKeyHit`). -/
theorem match_keybinding_precedence (toLower : Nat → Nat) (mods : Nat) (isVirtual : Bool)
    (kc : Nat) (translated raw : List Nat) (dev : Option String) (binds : List Keybind) :
    matchKeybinding toLower mods isVirtual kc translated raw dev binds =
      ((if isVirtual then none
        else binds.find? fun k =>
          keybindEligible mods dev k && keybindKeyHit toLower xkbKeyNoSymbol kc k) <|>
       (translated.findSome? fun s =>
          binds.find? fun k => keybindEligible mods dev k && keybindKeyHit toLower s kc k) <|>
       (raw.findSome? fun s =>
          binds.find? fun k => keybindEligible mods dev k && keybindKeyHit toLower s kc k)) := by
  rw [matchKeybinding]
  simp only [matchKeybindingForSym_eq_find, matchForSyms_eq_findSome]
  cases isVirtual with
  | true =>
    rw [if_pos rfl]
    cases translated.findSome? fun s =>
        binds.find? fun k => keybindEligible mods dev k && keybindKeyHit toLower s kc k with
    | none => simp
    | some k => simp
  | false =>
    rw [if_neg Bool.false_ne_true]
    cases binds.find? fun k =>
        keybindEligible mods dev k && keybindKeyHit toLower xkbKeyNoSymbol kc k with
    | none =>
      cases translated.findSome? fun s =>
          binds.find? fun k => keybindEligible mods dev k && keybindKeyHit toLower s kc k with
      | none => simp
      | some k => simp
    | some k => simp

/-- C6: a keybind's blacklist blocks a device exactly when some blacklist
entry equals the device name case-insensitively; a non-empty whitelist admits
a device exactly when some whitelist entry equals its name case-insensitively;
and an empty whitelist admits every device. -/
theorem device_filter_spec (bl wl : List (Option String)) (d : String) :
    (keybindDeviceIsBlacklisted bl (some d) = true ↔
       ∃ s, some s ∈ bl ∧ strCaseEq s d = true) ∧
    (keybindDeviceIsWhitelisted wl (some d) = true ↔
       (wl = [] ∨ ∃ s, some s ∈ wl ∧ strCaseEq s d = true)) ∧
    (∀ dev, keybindDeviceIsWhitelisted [] dev = true) := by
  refine ⟨?_, ?_, fun dev => rfl⟩
  · rw [keybindDeviceIsBlacklisted, List.any_eq_true]
    constructor
    · rintro ⟨e, he, hmatch⟩
      cases e with
      | none => simp at hmatch
      | some s => exact ⟨s, he, hmatch⟩
    · rintro ⟨s, hs, hmatch⟩
      exact ⟨some s, hs, hmatch⟩
  · cases wl with
    | nil => simp [keybindDeviceIsWhitelisted]
    | cons e l =>
      rw [keybindDeviceIsWhitelisted]
      simp only [List.isEmpty_cons, if_neg Bool.false_ne_true, List.any_eq_true]
      constructor
      · rintro ⟨x, hx, hmatch⟩
        cases x with
        | none => simp at hmatch
        | some s => exact Or.inr ⟨s, hx, hmatch⟩
      · rintro (h | ⟨s, hs, hmatch⟩)
        · exact absurd h (List.cons_ne_nil e l)
        · exact ⟨some s, hs, hmatch⟩

/-- C10: when the source device name is unavailable (NULL), the blacklist
check treats the device as not blacklisted, while any non-empty whitelist
blocks it — the two filters resolve an unknown device name in opposite
directions. -/
theorem unknown_device_resolution (bl wl : List (Option String)) (h : wl ≠ []) :
    keybindDeviceIsBlacklisted bl none = false ∧
    keybindDeviceIsWhitelisted wl none = false := by
  refine ⟨rfl, ?_⟩
  cases wl with
  | nil => exact absurd rfl h
  | cons e l => rfl

/-- Witness for C10 at a concrete whitelist. -/
theorem unknown_device_resolution_witness :
    ([some "usb-keyboard"] : List (Option String)) ≠ [] ∧
    keybindDeviceIsBlacklisted [some "evil"] none = false ∧
    keybindDeviceIsWhitelisted [some "usb-keyboard"] none = false :=
  ⟨by simp, (unknown_device_resolution [some "evil"] [some "usb-keyboard"] (by simp)).1,
   (unknown_device_resolution [some "evil"] [some "usb-keyboard"] (by simp)).2⟩

/-- isCondTrimChar captures the characters stripped from the end of the
condition output (src/src/input/keyboard.c line 659). -/
def isCondTrimChar (c : Char) : Bool :=
  c == '\n' || c == '\r' || c == ' ' || c == '\t'

/-- condTrim models the trailing-trim loop applied to the accumulated
condition-command output at EOF (src/src/input/keyboard.c lines 656-661):
drop trailing newlines, carriage returns, spaces and tabs. -/
def condTrim (s : List Char) : List Char :=
  (s.reverse.dropWhile isCondTrimChar).reverse

/-- condTrimmedBuf models the copy of the trimmed output into the local
`char trimmed[4096]` buffer (src/src/input/keyboard.c lines 653-667): the copy
happens only when `0 < len` and `len < sizeof(trimmed) - 1 = 4095`; otherwise
the buffer keeps its zeroed contents, i.e. the empty string. -/
def condTrimmedBuf (s : List Char) : List Char :=
  if 0 < (condTrim s).length ∧ (condTrim s).length < 4095 then condTrim s else []

/-- conditionMatched models the match decision at EOF
(src/src/input/keyboard.c lines 669-681): when `condition_values` is
non-empty, `strcmp` equality of the copied buffer against any value; when it
is empty, any positive trimmed length counts as a match. -/
def conditionMatched (output : List Char) (values : List (List Char)) : Bool :=
  if values ≠ [] then values.any fun v => condTrimmedBuf output == v
  else decide (0 < (condTrim output).length)

/-- CondEOFResult captures the externally visible effect of the condition
handlers: whether the keybind's actions run, whether the keycode is unmarked
as bound, and the press event re-injected to the focused client (keycode and
original timestamp), if any. -/
structure CondEOFResult where
  actionsRun : Bool
  keyUnbound : Bool
  forwardedPress : Option (Nat × Nat)
deriving DecidableEq

/-- keybindConditionReadableEOF models the EOF branch of
`keybind_condition_readable` (src/src/input/keyboard.c lines 647-716): on a
match the keybind's actions run; on a miss the keycode is unmarked as bound
and the original press is re-injected (through the IME grab if present) with
the original timestamp. -/
def keybindConditionReadableEOF (output : List Char) (values : List (List Char))
    (keycode timeMsec : Nat) : CondEOFResult :=
  if conditionMatched output values then ⟨true, false, none⟩
  else ⟨false, true, some (keycode, timeMsec)⟩

/-- keybindConditionTimeoutMs is `KEYBIND_CONDITION_TIMEOUT_MS`
(src/src/input/keyboard.c line 54). -/
def keybindConditionTimeoutMs : Nat := 2000

/-- keybindConditionTimeout models `keybind_condition_timeout`
(src/src/input/keyboard.c lines 622-629): the context is cleaned up and
nothing else happens — no actions, no unbinding, no forwarded press. -/
def keybindConditionTimeout : CondEOFResult := ⟨false, false, none⟩

/-- handleKeyRelease gives the consumed decision of `handle_key_release`
(src/src/input/keyboard.c lines 484-515) together with the updated bound-key
set.  Modelled from the spec: the key-state bound-key set (key-state.c is not
under src/) is the set of keycodes whose press was bound; a release is
consumed exactly when its press was bound, and consuming removes the keycode
from the set. -/
def handleKeyRelease (boundKeys : List Nat) (keycode : Nat) : Bool × List Nat :=
  if boundKeys.contains keycode then (true, boundKeys.erase keycode)
  else (false, boundKeys)

/-- bigCondOutput is a condition output of 4095 bytes with no trailing
whitespace, long enough to defeat the local-buffer copy. -/
def bigCondOutput : List Char := List.replicate 4095 'a'

theorem condTrim_bigCondOutput : condTrim bigCondOutput = bigCondOutput := by
  have h1 : bigCondOutput.reverse = bigCondOutput := by
    rw [bigCondOutput, List.reverse_replicate]
  have h2 : bigCondOutput = 'a' :: List.replicate 4094 'a' := by
    rw [bigCondOutput, show (4095 : Nat) = 4094 + 1 from rfl, List.replicate_succ]
  rw [condTrim, h1]
  conv_lhs => rw [h2]
  rw [List.dropWhile_cons, if_neg (by decide)]
  rw [← h2, h1]

theorem conditionMatched_bigCondOutput :
    conditionMatched bigCondOutput [bigCondOutput] = false := by
  have hbuf : condTrimmedBuf bigCondOutput = [] := by
    rw [condTrimmedBuf, condTrim_bigCondOutput]
    rw [if_neg]
    intro hc
    rw [bigCondOutput, List.length_replicate] at hc
    exact absurd hc.2 (by norm_num)
  rw [conditionMatched, if_pos (by simp), List.any_cons, List.any_nil, hbuf]
  have h2 : bigCondOutput = 'a' :: List.replicate 4094 'a' := by
    rw [bigCondOutput, show (4095 : Nat) = 4094 + 1 from rfl, List.replicate_succ]
  rw [h2]
  rfl

/-- Counterexample to C3 as stated: a condition command whose trimmed output
is 4095 bytes long and string-equal to a configured condition value is
nevertheless treated as a miss — the EOF handler compares the configured
values against the never-filled local buffer (the empty string), so the
actions do not run and the press is re-injected, although the claim requires
a match whenever the trimmed output equals some element. -/
theorem condition_eof_counterexample :
    condTrim bigCondOutput = bigCondOutput ∧
    bigCondOutput ∈ [bigCondOutput] ∧
    (keybindConditionReadableEOF bigCondOutput [bigCondOutput] 30 5000).actionsRun = false ∧
    (keybindConditionReadableEOF bigCondOutput [bigCondOutput] 30 5000).keyUnbound = true := by
  refine ⟨condTrim_bigCondOutput, List.mem_singleton.mpr rfl, ?_, ?_⟩
  · rw [keybindConditionReadableEOF, if_neg (by simp [conditionMatched_bigCondOutput])]
  · rw [keybindConditionReadableEOF, if_neg (by simp [conditionMatched_bigCondOutput])]

/-- C3 (amended): for every condition output whose trimmed length is below the
4095-byte capacity of the local copy buffer, the EOF handler strips trailing
newlines and whitespace and then matches exactly as claimed: with non-empty
`condition_values`, iff the trimmed output is string-equal to some element;
with empty `condition_values`, iff the trimmed output is non-empty.  On a
match the actions run; on a miss the keycode is unmarked as bound and the
original press event is re-injected with the original timestamp.  (For trimmed
outputs of 4095 bytes or more the code instead compares the empty string, see
the counterexample.) -/
theorem condition_eof_spec (output : List Char) (values : List (List Char))
    (keycode timeMsec : Nat) (h : (condTrim output).length < 4095) :
    (conditionMatched output values = true ↔
      (if values = [] then condTrim output ≠ [] else condTrim output ∈ values)) ∧
    (keybindConditionReadableEOF output values keycode timeMsec).actionsRun
      = conditionMatched output values ∧
    (keybindConditionReadableEOF output values keycode timeMsec).keyUnbound
      = !conditionMatched output values ∧
    (keybindConditionReadableEOF output values keycode timeMsec).forwardedPress
      = (if conditionMatched output values then none else some (keycode, timeMsec)) := by
  have hbuf : condTrimmedBuf output = condTrim output := by
    rw [condTrimmedBuf]
    by_cases hz : 0 < (condTrim output).length
    · rw [if_pos ⟨hz, h⟩]
    · rw [if_neg fun hc => hz hc.1]
      have hlen : (condTrim output).length = 0 := Nat.eq_zero_of_not_pos hz
      exact (List.length_eq_zero.mp hlen).symm
  refine ⟨?_, ?_, ?_, ?_⟩
  · rw [conditionMatched]
    by_cases hv : values = []
    · rw [if_neg (by simp [hv]), if_pos hv]
      simp [List.length_pos]
    · rw [if_pos hv, if_neg hv, List.any_eq_true]
      constructor
      · rintro ⟨v, hvmem, heq⟩
        rw [hbuf, beq_iff_eq] at heq
        exact heq ▸ hvmem
      · intro hmem
        exact ⟨condTrim output, hmem, by simp [hbuf]⟩
  · rw [keybindConditionReadableEOF]
    by_cases hm : conditionMatched output values = true
    · rw [if_pos hm, hm]
    · rw [if_neg hm, eq_false_of_ne_true hm]
  · rw [keybindConditionReadableEOF]
    by_cases hm : conditionMatched output values = true
    · rw [if_pos hm, hm]
      rfl
    · rw [if_neg hm, eq_false_of_ne_true hm]
      rfl
  · rw [keybindConditionReadableEOF]
    by_cases hm : conditionMatched output values = true
    · rw [if_pos hm, if_pos hm]
    · rw [if_neg hm, if_neg hm]

/-- okOutput is the spec's boundary example: the command emits the expected
value followed by a newline. -/
def okOutput : List Char := ['o', 'k', '\n']

/-- Witness for C3 (amended) at the spec's example: output "ok\n" matches the
expected value "ok" and the actions run. -/
theorem condition_eof_spec_witness :
    (condTrim okOutput).length < 4095 ∧
    conditionMatched okOutput [['o', 'k']] = true ∧
    (keybindConditionReadableEOF okOutput [['o', 'k']] 30 777).actionsRun = true := by
  refine ⟨by decide, ?_, ?_⟩
  · exact ((condition_eof_spec okOutput [['o', 'k']] 30 777 (by decide)).1).mpr (by decide)
  · rw [(condition_eof_spec okOutput [['o', 'k']] 30 777 (by decide)).2.1]
    exact ((condition_eof_spec okOutput [['o', 'k']] 30 777 (by decide)).1).mpr (by decide)

/-- C4: a condition command that does not finish within the 2000 ms timeout is
aborted and cleaned up: no actions run, nothing is forwarded to any client,
and the keycode stays marked bound, so the corresponding release is still
absorbed by the bound-key check. -/
theorem condition_timeout_spec (boundKeys : List Nat) (keycode : Nat)
    (h : boundKeys.contains keycode = true) :
    keybindConditionTimeoutMs = 2000 ∧
    keybindConditionTimeout.actionsRun = false ∧
    keybindConditionTimeout.keyUnbound = false ∧
    keybindConditionTimeout.forwardedPress = none ∧
    (handleKeyRelease boundKeys keycode).1 = true := by
  refine ⟨rfl, rfl, rfl, rfl, ?_⟩
  rw [handleKeyRelease, if_pos h]

/-- Witness for C4 at a concrete bound keycode. -/
theorem condition_timeout_spec_witness :
    ([30, 56] : List Nat).contains 30 = true ∧
    (handleKeyRelease [30, 56] 30).1 = true :=
  ⟨by decide, (condition_timeout_spec [30, 56] 30 (by decide)).2.2.2.2⟩

/-- InputMode models `enum input_mode` of the server (per seat). -/
inductive InputMode
  | passthrough
  | menu
  | cycle
  | move
  | resize
  | dnd
deriving DecidableEq

/-- LabKeyHandled models `enum lab_key_handled`
(src/src/input/keyboard.c lines 31-35). -/
inductive LabKeyHandled
  | notHandled
  | handledTrue
  | handledVTChanged
deriving DecidableEq

/-- CycleAction records which window-switcher operation a key press triggers. -/
inductive CycleAction
  | finishNoSwitch
  | stepBackward
  | stepForward
deriving DecidableEq

/-- xkbKeyEscape is `XKB_KEY_Escape`. -/
def xkbKeyEscape : Nat := 0xff1b

/-- xkbKeyLeft is `XKB_KEY_Left`. -/
def xkbKeyLeft : Nat := 0xff51

/-- xkbKeyUp is `XKB_KEY_Up`. -/
def xkbKeyUp : Nat := 0xff52

/-- xkbKeyRight is `XKB_KEY_Right`. -/
def xkbKeyRight : Nat := 0xff53

/-- xkbKeyDown is `XKB_KEY_Down`. -/
def xkbKeyDown : Nat := 0xff54

/-- cycleActionForSyms embeds the keysym loop of `handle_cycle_view_key`
(src/src/input/keyboard.c lines 575-595): the first translated keysym that is
Escape finishes cycling without switching focus, Up or Left steps backward,
Down or Right steps forward; other keysyms are skipped. -/
def cycleActionForSyms : List Nat → Option CycleAction
  | [] => none
  | s :: rest =>
    if s = xkbKeyEscape then some CycleAction.finishNoSwitch
    else if s = xkbKeyUp ∨ s = xkbKeyLeft then some CycleAction.stepBackward
    else if s = xkbKeyDown ∨ s = xkbKeyRight then some CycleAction.stepForward
    else cycleActionForSyms rest

/-- handleCycleViewKey embeds `handle_cycle_view_key`
(src/src/input/keyboard.c lines 567-596): modifier keys never trigger a cycle
operation; `some` means the keystroke is consumed. -/
def handleCycleViewKey (isModifier : Bool) (translated : List Nat) : Option CycleAction :=
  if isModifier then none else cycleActionForSyms translated

/-- vtNumber models the unsigned computation
`vt = translated->syms[i] - XKB_KEY_XF86Switch_VT_1 + 1` of
`handle_change_vt_key` (src/src/input/keyboard.c lines 517-531), with the
2^32 wraparound of C unsigned arithmetic made explicit
(`XKB_KEY_XF86Switch_VT_1 = 0x1008FE01`). -/
def vtNumber (sym : Nat) : Int :=
  ((sym : Int) - 0x1008FE01 + 1).emod (2 ^ 32)

/-- handleChangeVTKey embeds `handle_change_vt_key`: true when some translated
keysym requests a VT switch (vt between 1 and 12). -/
def handleChangeVTKey (translated : List Nat) : Bool :=
  translated.any fun s => decide (1 ≤ vtNumber s ∧ vtNumber s ≤ 12)

/-- PressResult captures the externally visible effect of the press half of
`handle_compositor_keybindings` (src/src/input/keyboard.c lines 777-884):
the returned `lab_key_handled` value, whether the keycode was stored as bound,
whether keybind actions ran synchronously, whether an asynchronous condition
check is pending, the cycle operation triggered (if any), and whether the key
was routed to the menu. -/
structure PressResult where
  handled : LabKeyHandled
  boundMarked : Bool
  actionsRunNow : Bool
  conditionPending : Bool
  cycleAction : Option CycleAction
  menuRouted : Bool
deriving DecidableEq

/-- handleCompositorPress embeds the press path of
`handle_compositor_keybindings` (src/src/input/keyboard.c lines 777-884), in
the source's order: VT-switch keys, then (when the session is not locked) menu
routing and cycle-mode handling, then the global device blacklist
(`keyboard_device_is_blacklisted`, an rcxml helper modelled as the boolean
`globalDeviceBlacklisted`), then keybind matching.  A matched press-bind
either runs its actions now (no condition command), or marks the key bound
with the condition check pending (`keybind_check_condition_async` returned
false after spawning), or — when the spawn fails — is still marked bound and
consumed with nothing pending. -/
def handleCompositorPress (toLower : Nat → Nat) (inputMode : InputMode) (locked : Bool)
    (isVirtual : Bool) (deviceName : Option String) (globalDeviceBlacklisted : Bool)
    (binds : List Keybind) (mods kc : Nat) (translated raw : List Nat)
    (isModifier : Bool) (spawnOk : Bool) : PressResult :=
  if handleChangeVTKey translated then
    ⟨LabKeyHandled.handledVTChanged, true, false, false, none, false⟩
  else if locked = false ∧ inputMode = InputMode.menu then
    ⟨LabKeyHandled.handledTrue, true, false, false, none, true⟩
  else if locked = false ∧ inputMode = InputMode.cycle
      ∧ (handleCycleViewKey isModifier translated).isSome then
    ⟨LabKeyHandled.handledTrue, true, false, false,
      handleCycleViewKey isModifier translated, false⟩
  else if globalDeviceBlacklisted then
    ⟨LabKeyHandled.notHandled, false, false, false, none, false⟩
  else
    match matchKeybinding toLower mods isVirtual kc translated raw deviceName binds with
    | none => ⟨LabKeyHandled.notHandled, false, false, false, none, false⟩
    | some k =>
      if locked = false ∨ k.allowWhenLocked = true then
        if k.onRelease = false then
          if k.hasCondition = false then
            ⟨LabKeyHandled.handledTrue, true, true, false, none, false⟩
          else if spawnOk then
            ⟨LabKeyHandled.handledTrue, true, false, true, none, false⟩
          else
            ⟨LabKeyHandled.handledTrue, true, false, false, none, false⟩
        else
          ⟨LabKeyHandled.handledTrue, true, false, false, none, false⟩
      else
        ⟨LabKeyHandled.notHandled, false, false, false, none, false⟩

/-- KeyEventResult captures the effect of `handle_key`
(src/src/input/keyboard.c lines 947-982) on a press: the press result of the
compositor-keybindings pass, whether the key-repeat timer was started
(`start_keybind_repeat`), and whether the press was forwarded to the focused
client (through the IME grab if one is active). -/
structure KeyEventResult where
  pressResult : PressResult
  repeatStarted : Bool
  forwardedToClient : Bool
deriving DecidableEq

/-- handleKeyPress embeds `handle_key` for a press event: any pending repeat
is first cancelled, the compositor-keybindings pass runs, and then — unless a
VT change happened — a handled press of a non-modifier key starts the repeat
timer when the keyboard reports a positive repeat rate and delay, while an
unhandled press is forwarded to the client. -/
def handleKeyPress (toLower : Nat → Nat) (inputMode : InputMode) (locked : Bool)
    (isVirtual : Bool) (deviceName : Option String) (globalDeviceBlacklisted : Bool)
    (binds : List Keybind) (mods kc : Nat) (translated raw : List Nat)
    (isModifier : Bool) (spawnOk : Bool) (repeatRate repeatDelay : Int) : KeyEventResult :=
  let r := handleCompositorPress toLower inputMode locked isVirtual deviceName
    globalDeviceBlacklisted binds mods kc translated raw isModifier spawnOk
  match r.handled with
  | LabKeyHandled.handledVTChanged => ⟨r, false, false⟩
  | LabKeyHandled.handledTrue =>
    ⟨r, !isModifier && decide (0 < repeatRate) && decide (0 < repeatDelay), false⟩
  | LabKeyHandled.notHandled => ⟨r, false, true⟩

/-- condGatedBind is a concrete keybind with a condition command, bound to
keysym 0x61 with no modifiers. -/
def condGatedBind : Keybind :=
  ⟨0, true, false, [], [], [0x61], [38], false, false, true⟩

/-- Counterexample to C7 as stated: for a non-modifier press that matches a
condition-gated keybind (passthrough mode, unlocked, repeat rate 25 and delay
600), the press is marked bound and the condition check is dispatched, yet
`handle_key` still starts the key-repeat timer — the claim says the timer is
never started for such presses. -/
theorem condition_gated_repeat_counterexample :
    (handleKeyPress id InputMode.passthrough false false (some "kbd") false
        [condGatedBind] 0 38 [0x61] [0x61] false true 25 600).repeatStarted = true ∧
    (handleKeyPress id InputMode.passthrough false false (some "kbd") false
        [condGatedBind] 0 38 [0x61] [0x61] false true 25 600).pressResult.conditionPending
      = true ∧
    (handleKeyPress id InputMode.passthrough false false (some "kbd") false
        [condGatedBind] 0 38 [0x61] [0x61] false true 25 600).pressResult.boundMarked
      = true := by
  decide

/-- C7 (amended): a non-modifier press matching a condition-gated keybind
(passthrough mode, session unlocked, device not globally blacklisted) is
marked bound — so its release is absorbed — and dispatches the condition
check without running actions; but the key-repeat timer is still started for
it, exactly as for any other handled press, whenever the keyboard reports a
positive repeat rate and delay (rather than never, as claimed). -/
theorem condition_gated_press_spec (toLower : Nat → Nat) (isVirtual : Bool)
    (deviceName : Option String) (binds : List Keybind) (mods kc : Nat)
    (translated raw : List Nat) (repeatRate repeatDelay : Int) (k : Keybind)
    (hvt : handleChangeVTKey translated = false)
    (hmatch : matchKeybinding toLower mods isVirtual kc translated raw deviceName binds
      = some k)
    (hrel : k.onRelease = false) (hcond : k.hasCondition = true) :
    (handleKeyPress toLower InputMode.passthrough false isVirtual deviceName false
        binds mods kc translated raw false true repeatRate repeatDelay).pressResult.boundMarked
      = true ∧
    (handleKeyPress toLower InputMode.passthrough false isVirtual deviceName false
        binds mods kc translated raw false true repeatRate
        repeatDelay).pressResult.conditionPending = true ∧
    (handleKeyPress toLower InputMode.passthrough false isVirtual deviceName false
        binds mods kc translated raw false true repeatRate
        repeatDelay).pressResult.actionsRunNow = false ∧
    (handleKeyPress toLower InputMode.passthrough false isVirtual deviceName false
        binds mods kc translated raw false true repeatRate repeatDelay).repeatStarted
      = (decide (0 < repeatRate) && decide (0 < repeatDelay)) := by
  have hpress : handleCompositorPress toLower InputMode.passthrough false isVirtual
      deviceName false binds mods kc translated raw false true
      = ⟨LabKeyHandled.handledTrue, true, false, true, none, false⟩ := by
    rw [handleCompositorPress, if_neg (by simp [hvt]), if_neg (by simp),
      if_neg (by simp), if_neg (by simp), hmatch]
    simp [hrel, hcond]
  refine ⟨?_, ?_, ?_, ?_⟩ <;>
    simp [handleKeyPress, hpress]

/-- Witness for C7 (amended) at a concrete condition-gated keybind. -/
theorem condition_gated_press_spec_witness :
    handleChangeVTKey [0x62] = false ∧
    matchKeybinding id 0 false 56 [0x62] [0x62] (some "kbd")
      [⟨0, true, false, [], [], [0x62], [56], false, false, true⟩]
      = some ⟨0, true, false, [], [], [0x62], [56], false, false, true⟩ ∧
    (handleKeyPress id InputMode.passthrough false false (some "kbd") false
        [⟨0, true, false, [], [], [0x62], [56], false, false, true⟩] 0 56 [0x62] [0x62]
        false true 30 500).pressResult.boundMarked = true := by
  refine ⟨by decide, by decide, ?_⟩
  exact (condition_gated_press_spec id false (some "kbd")
    [⟨0, true, false, [], [], [0x62], [56], false, false, true⟩] 0 56 [0x62] [0x62]
    30 500 ⟨0, true, false, [], [], [0x62], [56], false, false, true⟩
    (by decide) (by decide) rfl rfl).1

/-- Counterexample to C8 as stated: in CYCLE mode (unlocked), a press of the
non-modifier key with translated keysym 0x61 that the cycle handler does not
recognize and that matches no keybind is not consumed — `handle_key` forwards
it to the focused client, although the claim says every non-modifier key press
in this mode is consumed. -/
theorem cycle_mode_counterexample :
    (handleKeyPress id InputMode.cycle false false (some "kbd") false
        [] 0 38 [0x61] [0x61] false true 25 600).forwardedToClient = true ∧
    (handleKeyPress id InputMode.cycle false false (some "kbd") false
        [] 0 38 [0x61] [0x61] false true 25 600).pressResult.handled
      = LabKeyHandled.notHandled := by
  decide

/-- C8 (amended): in CYCLE input mode with the session unlocked, modifier keys
do not respond; among the translated keysyms of a non-modifier press, Escape
aborts cycling without switching focus, Up or Left cycles backward, and Down
or Right cycles forward; every press the cycle handler recognizes is consumed
(marked bound, not forwarded).  Non-modifier presses the handler does not
recognize fall through to regular keybind matching instead of being consumed
unconditionally (see the counterexample). -/
theorem cycle_mode_key_spec (toLower : Nat → Nat) (translated raw rest : List Nat)
    (isModifier isVirtual spawnOk gbl : Bool) (deviceName : Option String)
    (binds : List Keybind) (mods kc : Nat)
    (hvt : handleChangeVTKey translated = false) :
    handleCycleViewKey true translated = none ∧
    cycleActionForSyms (xkbKeyEscape :: rest) = some CycleAction.finishNoSwitch ∧
    cycleActionForSyms (xkbKeyUp :: rest) = some CycleAction.stepBackward ∧
    cycleActionForSyms (xkbKeyLeft :: rest) = some CycleAction.stepBackward ∧
    cycleActionForSyms (xkbKeyDown :: rest) = some CycleAction.stepForward ∧
    cycleActionForSyms (xkbKeyRight :: rest) = some CycleAction.stepForward ∧
    ((handleCycleViewKey isModifier translated).isSome = true →
      (handleCompositorPress toLower InputMode.cycle false isVirtual deviceName gbl
          binds mods kc translated raw isModifier spawnOk).handled
        = LabKeyHandled.handledTrue ∧
      (handleCompositorPress toLower InputMode.cycle false isVirtual deviceName gbl
          binds mods kc translated raw isModifier spawnOk).boundMarked = true ∧
      (handleCompositorPress toLower InputMode.cycle false isVirtual deviceName gbl
          binds mods kc translated raw isModifier spawnOk).cycleAction
        = handleCycleViewKey isModifier translated) := by
  refine ⟨?_, ?_, ?_, ?_, ?_, ?_, ?_⟩
  · rw [handleCycleViewKey, if_pos rfl]
  · rw [cycleActionForSyms, if_pos rfl]
  · rw [cycleActionForSyms, if_neg (by decide), if_pos (Or.inl rfl)]
  · rw [cycleActionForSyms, if_neg (by decide), if_pos (Or.inr rfl)]
  · rw [cycleActionForSyms, if_neg (by decide), if_neg (by decide), if_pos (Or.inl rfl)]
  · rw [cycleActionForSyms, if_neg (by decide), if_neg (by decide), if_pos (Or.inr rfl)]
  · intro hsome
    have hpress : handleCompositorPress toLower InputMode.cycle false isVirtual
        deviceName gbl binds mods kc translated raw isModifier spawnOk
        = ⟨LabKeyHandled.handledTrue, true, false, false,
            handleCycleViewKey isModifier translated, false⟩ := by
      rw [handleCompositorPress, if_neg (by simp [hvt]), if_neg (by simp),
        if_pos ⟨rfl, rfl, hsome⟩]
    rw [hpress]
    exact ⟨rfl, rfl, rfl⟩

/-- Witness for C8 (amended): a concrete Escape press in CYCLE mode is
consumed and finishes cycling without switching focus. -/
theorem cycle_mode_key_spec_witness :
    handleChangeVTKey [xkbKeyEscape] = false ∧
    (handleCycleViewKey false [xkbKeyEscape]).isSome = true ∧
    (handleCompositorPress id InputMode.cycle false false (some "kbd") false
        [] 0 1 [xkbKeyEscape] [xkbKeyEscape] false true).handled
      = LabKeyHandled.handledTrue ∧
    (handleCompositorPress id InputMode.cycle false false (some "kbd") false
        [] 0 1 [xkbKeyEscape] [xkbKeyEscape] false true).cycleAction
      = some CycleAction.finishNoSwitch := by
  refine ⟨by decide, by decide, ?_, ?_⟩
  · exact ((cycle_mode_key_spec id [xkbKeyEscape] [xkbKeyEscape] [] false false true
      false (some "kbd") [] 0 1 (by decide)).2.2.2.2.2.2 (by decide)).1
  · have h := ((cycle_mode_key_spec id [xkbKeyEscape] [xkbKeyEscape] [] false false true
      false (some "kbd") [] 0 1 (by decide)).2.2.2.2.2.2 (by decide)).2.2
    rw [h]
    decide

/-- cIsSpace models C `isspace` in the default locale, as consumed by `atoi`. -/
def cIsSpace (c : Char) : Bool :=
  c == ' ' || c == '\t' || c == '\n' || c == '\x0b' || c == '\x0c' || c == '\r'

/-- cAtoiDigits accumulates leading decimal digits, stopping at the first
non-digit, as `atoi` does. -/
def cAtoiDigits : List Char → Nat → Nat
  | [], acc => acc
  | c :: rest, acc =>
    if 48 ≤ c.toNat ∧ c.toNat ≤ 57 then cAtoiDigits rest (acc * 10 + (c.toNat - 48))
    else acc

/-- cAtoi models C `atoi`: skip leading whitespace, accept an optional sign,
then read decimal digits; any other string yields 0. -/
def cAtoi (s : String) : Int :=
  let t := s.data.dropWhile cIsSpace
  match t with
  | '-' :: rest => -(cAtoiDigits rest 0 : Int)
  | '+' :: rest => (cAtoiDigits rest 0 : Int)
  | _ => (cAtoiDigits t 0 : Int)

/-- CliExit models the observable outcome of a CLI control invocation: the
process exit code, whether a message was written to stderr, and what was
printed to stdout. -/
structure CliExit where
  code : Nat
  wroteStderr : Bool
  stdoutOut : Option String
deriving DecidableEq

/-- sendCommandExit embeds the common shape of `send_keybind_command`,
`send_tiling_command` and `send_workspace_command` followed by
`send_signal_to_labwc_pid(SIGUSR1)` and the `exit(0)` in `main`
(src/src/main.c lines 138-253 and 401-439): exit nonzero with a stderr
message when `XDG_RUNTIME_DIR` or `LABWC_PID` is unset or when the command
file cannot be opened (`openOk` models the `fopen` outcome); otherwise write
the command line, signal the compositor and exit 0.
`send_signal_to_labwc_pid` additionally refuses to signal pid 0 — the `atoi`
result of a non-numeric `LABWC_PID` — with an error log on stderr. -/
def sendCommandExit (xdgRuntimeDir labwcPid : Option String) (openOk : Bool) : CliExit :=
  match xdgRuntimeDir with
  | none => ⟨1, true, none⟩
  | some _ =>
    match labwcPid with
    | none => ⟨1, true, none⟩
    | some pid =>
      if openOk = false then ⟨1, true, none⟩
      else if cAtoi pid = 0 then ⟨1, true, none⟩
      else ⟨0, false, none⟩

/-- stripTrailingNewline models the fgets post-processing in the query
commands (src/src/main.c lines 274-280 and 310-316): remove one trailing
newline when present. -/
def stripTrailingNewline (s : List Char) : List Char :=
  match s.reverse with
  | '\n' :: rest => rest.reverse
  | _ => s

/-- queryStatusExit embeds the common shape of `query_workspace_current` and
`query_tiling_status` (src/src/main.c lines 255-325): exit nonzero with a
stderr message when `XDG_RUNTIME_DIR` is unset, when the status file cannot
be opened, or when nothing can be read from it (`readContent` models the
`fgets` result); otherwise print the line without its trailing newline and
exit 0. -/
def queryStatusExit (xdgRuntimeDir : Option String) (openOk : Bool)
    (readContent : Option (List Char)) : CliExit :=
  match xdgRuntimeDir with
  | none => ⟨1, true, none⟩
  | some _ =>
    if openOk = false then ⟨1, true, none⟩
    else
      match readContent with
      | some line => ⟨0, false, some (String.mk (stripTrailingNewline line))⟩
      | none => ⟨1, true, none⟩

/-- C9: a CLI control invocation exits 0 after successfully writing the
command file and signalling a valid pid, or after a successful query print;
it exits nonzero and writes to stderr whenever `XDG_RUNTIME_DIR` or
`LABWC_PID` is unset in the environment or the command/status file cannot be
opened or read. -/
theorem cli_exit_spec (xdg pid : Option String) (openOk : Bool)
    (readContent : Option (List Char)) :
    (xdg = none ∨ pid = none ∨ openOk = false →
      (sendCommandExit xdg pid openOk).code ≠ 0 ∧
      (sendCommandExit xdg pid openOk).wroteStderr = true) ∧
    (∀ r p, xdg = some r → pid = some p → openOk = true → cAtoi p ≠ 0 →
      sendCommandExit xdg pid openOk = ⟨0, false, none⟩) ∧
    (xdg = none ∨ openOk = false ∨ readContent = none →
      (queryStatusExit xdg openOk readContent).code ≠ 0 ∧
      (queryStatusExit xdg openOk readContent).wroteStderr = true) ∧
    (∀ r line, xdg = some r → openOk = true → readContent = some line →
      queryStatusExit xdg openOk readContent
        = ⟨0, false, some (String.mk (stripTrailingNewline line))⟩) := by
  refine ⟨?_, ?_, ?_, ?_⟩
  · rintro (h | h | h) <;> subst h
    · simp [sendCommandExit]
    · cases xdg <;> simp [sendCommandExit]
    · cases xdg <;> cases pid <;> simp [sendCommandExit]
  · rintro r p hx hp ho hz
    subst hx
    subst hp
    subst ho
    simp [sendCommandExit, hz]
  · rintro (h | h | h) <;> subst h
    · simp [queryStatusExit]
    · cases xdg <;> simp [queryStatusExit]
    · cases xdg <;> cases openOk <;> simp [queryStatusExit]
  · rintro r line hx ho hr
    subst hx
    subst ho
    subst hr
    simp [queryStatusExit]

/-- Witness for C9 at concrete environments: a complete environment with a
numeric pid exits 0; a missing `XDG_RUNTIME_DIR` exits nonzero; a successful
tiling-status query prints the status and exits 0. -/
theorem cli_exit_spec_witness :
    sendCommandExit (some "/run/user/1000") (some "1234") true = ⟨0, false, none⟩ ∧
    (sendCommandExit none (some "1234") true).code ≠ 0 ∧
    queryStatusExit (some "/run/user/1000") true (some ['s', 'm', 'a', 'r', 't', '\n'])
      = ⟨0, false, some "smart"⟩ := by
  refine ⟨?_, ?_, ?_⟩
  · exact (cli_exit_spec (some "/run/user/1000") (some "1234") true none).2.1
      "/run/user/1000" "1234" rfl rfl rfl (by decide)
  · exact ((cli_exit_spec none (some "1234") true none).1 (Or.inl rfl)).1
  · have h := (cli_exit_spec (some "/run/user/1000") (some "1234") true
      (some ['s', 'm', 'a', 'r', 't', '\n'])).2.2.2 "/run/user/1000"
      ['s', 'm', 'a', 'r', 't', '\n'] rfl rfl rfl
    rw [h]
    rfl
